import Mathlib

/-!
# qbo-cli — General Ledger report engine: a shallow embedding

This file embeds the GL report engine of `qbo_cli/cli.py` in Lean and
settles the specification claims about it.

Conventions of the embedding:
* Python `float` amounts are modelled as `ℚ`; every amount appearing in
  the claims is an exact decimal, where `float` arithmetic agrees with `ℚ`.
* The dynamic report payload (`dict`) is modelled by the inductive types
  `ColCell`, `RawRow`, `RowsObj` below, which mirror exactly the accesses
  the source performs (`.get` with a default is modelled by a total field,
  a possibly-absent key by a dedicated constructor).
* Python string primitives (`strip`, `endswith`, slicing, `split`) are
  modelled by character-list functions with the same semantics.
* Fallible parsing returns `Option`.
-/

/-- Python `s.strip()`: drop leading and trailing whitespace. -/
def pyStrip (s : String) : String :=
  String.mk (((s.toList.dropWhile Char.isWhitespace).reverse.dropWhile
    Char.isWhitespace).reverse)

/-- Python `s.endswith(suff)`. -/
def strEndsWith (s suff : String) : Bool :=
  s.toList.reverse.take suff.toList.length == suff.toList.reverse

/-- Python `s[:n]` (slice of the first `n` code points). -/
def pyTake (s : String) (n : ℕ) : String :=
  String.mk (s.toList.take n)

/-- Python `s[n:]`. -/
def pyDrop (s : String) (n : ℕ) : String :=
  String.mk (s.toList.drop n)

/-- Numeric value of a list of decimal digit characters. -/
def digitsVal (ds : List Char) : ℕ :=
  ds.foldl (fun a c => 10 * a + (c.toNat - 48)) 0

/-- Helper for Python `s.split(":")[-1]`: the characters after the last
`':'`, reading a reversed character list. -/
def lastColonSegRev : List Char → List Char
  | [] => []
  | c :: rest => if c = ':' then [] else c :: lastColonSegRev rest

/-- Python `s.split(":")[-1]`. -/
def lastColonSeg (s : String) : String :=
  String.mk (lastColonSegRev s.toList.reverse).reverse

/-- A cell of a `ColData` column list: the source only ever reads
`cell.get("value", "")` and `cell.get("id", "")`, so a cell is a pair of
strings with absent keys collapsed to `""`. -/
structure ColCell where
  value : String
  id : String
deriving DecidableEq, Repr

mutual
/-- The raw `Rows` object handed to `_parse_gl_rows`.  The source tests
`if not rows_obj or "Row" not in rows_obj`; the constructors record the
cases that test distinguishes: Python `None`, a dict without a `"Row"`
key (with its truthiness), and a dict whose `"Row"` key holds a row list. -/
inductive RowsObj : Type where
  | pyNone : RowsObj
  | noRowKey (truthy : Bool) : RowsObj
  | withRow (rs : List RawRow) : RowsObj

/-- One element of a `Row` list: its `type` tag, `Header.ColData`
(absent `Header` or `ColData` collapses to `[]`), its own `ColData`, and
its nested `Rows` object (absent collapses to an empty dict). -/
inductive RawRow : Type where
  | mk (rtype : String) (header : List ColCell) (colData : List ColCell)
       (inner : RowsObj)
end

def RawRow.rtype : RawRow → String
  | .mk t _ _ _ => t

def RawRow.header : RawRow → List ColCell
  | .mk _ h _ _ => h

def RawRow.colData : RawRow → List ColCell
  | .mk _ _ cd _ => cd

def RawRow.inner : RawRow → RowsObj
  | .mk _ _ _ i => i

/-- `GLTransaction` (class `GLTransaction` in the source): an immutable
record of one ledger row. -/
structure GLTransaction where
  date : String
  txn_type : String
  txn_id : String
  num : String
  customer : String
  memo : String
  account : String
  amount : ℚ
deriving DecidableEq, Repr

/-- `GLSection` (class `GLSection` in the source): a parsed GL account
section; `direct_amount`/`direct_count`/`transactions` are this section's
own data, `children` its nested sub-sections. -/
inductive GLSection : Type where
  | mk (name id : String) (direct_amount : ℚ) (direct_count : ℕ)
       (children : List GLSection) (transactions : List GLTransaction)

def GLSection.name : GLSection → String
  | .mk n _ _ _ _ _ => n

def GLSection.sid : GLSection → String
  | .mk _ i _ _ _ _ => i

def GLSection.direct_amount : GLSection → ℚ
  | .mk _ _ da _ _ _ => da

def GLSection.direct_count : GLSection → ℕ
  | .mk _ _ _ dc _ _ => dc

def GLSection.children : GLSection → List GLSection
  | .mk _ _ _ _ cs _ => cs

def GLSection.transactions : GLSection → List GLTransaction
  | .mk _ _ _ _ _ ts => ts

mutual
/-- `GLSection.total_amount` (a `@property` in the source): direct amount
plus the recursively summed total of every child, recomputed on demand. -/
def GLSection.total_amount : GLSection → ℚ
  | .mk _ _ da _ cs _ => da + totalAmountList cs

def totalAmountList : List GLSection → ℚ
  | [] => 0
  | s :: rest => s.total_amount + totalAmountList rest
end

mutual
/-- `GLSection.total_count`: direct count plus children's totals. -/
def GLSection.total_count : GLSection → ℕ
  | .mk _ _ _ dc cs _ => dc + totalCountList cs

def totalCountList : List GLSection → ℕ
  | [] => 0
  | s :: rest => s.total_count + totalCountList rest
end

mutual
/-- `GLSection.all_transactions`: own transactions followed by all
descendants' transactions, as a fresh list. -/
def GLSection.all_transactions : GLSection → List GLTransaction
  | .mk _ _ _ _ cs ts => ts ++ allTransactionsList cs

def allTransactionsList : List GLSection → List GLTransaction
  | [] => []
  | s :: rest => s.all_transactions ++ allTransactionsList rest
end

/-- The syntactic content of a finite Python `float` literal: sign,
integer-part value, fractional-part value and digit count, exponent sign
and magnitude. -/
structure FloatLit where
  neg : Bool
  ipart : ℕ
  fpart : ℕ
  fdigits : ℕ
  eneg : Bool
  emag : ℕ
deriving DecidableEq, Repr

/-- Syntax of Python `float(s)` on finite decimal literals: optional
surrounding whitespace, optional sign, digits with an optional fractional
part, optional exponent.  Non-numeric strings (and `""`) give `none`,
which the source turns into a `ValueError`-driven row skip.  Non-finite
literals (`inf`, `nan`) and underscore separators are outside the model;
no claim involves them. -/
def pyFloatLit? (s : String) : Option FloatLit :=
  let cs := (pyStrip s).toList
  let sgn : Bool × List Char :=
    match cs with
    | '+' :: r => (false, r)
    | '-' :: r => (true, r)
    | r => (false, r)
  let ip := sgn.2.takeWhile Char.isDigit
  let cs2 := sgn.2.dropWhile Char.isDigit
  let fpr : List Char × List Char :=
    match cs2 with
    | '.' :: r => (r.takeWhile Char.isDigit, r.dropWhile Char.isDigit)
    | r => ([], r)
  if ip.isEmpty && fpr.1.isEmpty then none
  else
    match fpr.2 with
    | [] => some ⟨sgn.1, digitsVal ip, digitsVal fpr.1, fpr.1.length, false, 0⟩
    | e :: r =>
      if e = 'e' || e = 'E' then
        let esgn : Bool × List Char :=
          match r with
          | '+' :: q => (false, q)
          | '-' :: q => (true, q)
          | q => (false, q)
        let ed := esgn.2.takeWhile Char.isDigit
        if ed.isEmpty || !(esgn.2.dropWhile Char.isDigit).isEmpty then none
        else some ⟨sgn.1, digitsVal ip, digitsVal fpr.1, fpr.1.length, esgn.1, digitsVal ed⟩
      else none

/-- The rational value of a float literal. -/
def FloatLit.val (f : FloatLit) : ℚ :=
  (if f.neg then -1 else 1) * ((f.ipart : ℚ) + (f.fpart : ℚ) / 10 ^ f.fdigits) *
    (10 : ℚ) ^ (if f.eneg then -(f.emag : ℤ) else (f.emag : ℤ))

/-- Model of Python `float(s)`: value of the literal when it parses. -/
def pyFloat? (s : String) : Option ℚ :=
  (pyFloatLit? s).map FloatLit.val

/-- `cols[i].get("value", "")` guarded by `len(cols) > i`, as the source
writes it. -/
def colV (cols : List ColCell) (i : ℕ) : String :=
  (cols.getD i ⟨"", ""⟩).value

/-- `cols[i].get("id", "")` guarded by `len(cols) > i`. -/
def colI (cols : List ColCell) (i : ℕ) : String :=
  (cols.getD i ⟨"", ""⟩).id

/-- `_parse_txn_from_row`: parse a Data row's `ColData` into a
transaction; `none` models the source's `return None` (empty column list,
"Beginning Balance" sentinel, missing/empty/non-numeric amount cell). -/
def parseTxnFromRow (cols : List ColCell) : Option GLTransaction :=
  if cols.isEmpty || colV cols 0 = "Beginning Balance" then none
  else
    let amtStr := if 6 < cols.length then colV cols 6 else ""
    if amtStr = "" then none
    else
      match pyFloat? amtStr with
      | none => none
      | some a =>
        some { date := colV cols 0, txn_type := colV cols 1, txn_id := colI cols 1,
               num := colV cols 2, customer := colV cols 3, memo := colV cols 4,
               account := colV cols 5, amount := a }

/-- The accumulation loop `for inner_row in inner_rows["Row"]: if type ==
"Data": ...` of `_parse_gl_rows`, returning the section's
(direct_amount, direct_count, transactions) contribution in row order. -/
def foldTxnRows : List RawRow → ℚ × ℕ × List GLTransaction
  | [] => (0, 0, [])
  | (RawRow.mk t _ cd _) :: rest =>
    let r := foldTxnRows rest
    if t = "Data" then
      match parseTxnFromRow cd with
      | some txn => (txn.amount + r.1, r.2.1 + 1, txn :: r.2.2)
      | none => r
    else r

/-- The guard `if inner_rows and "Row" in inner_rows:` before the
accumulation loop: only a dict carrying a `"Row"` list is scanned. -/
def directTxns : RowsObj → ℚ × ℕ × List GLTransaction
  | RowsObj.withRow rs => foldTxnRows rs
  | _ => (0, 0, [])

/-- The sentinel name the parser gives anonymous (headerless) sections. -/
def sentinelName : String := "__direct__"

def sumDirectAmount (l : List GLSection) : ℚ := (l.map GLSection.direct_amount).sum

def sumDirectCount (l : List GLSection) : ℕ := (l.map GLSection.direct_count).sum

def concatTransactions (l : List GLSection) : List GLTransaction :=
  (l.map GLSection.transactions).flatten

mutual
/-- `_parse_gl_rows`: parse a raw `Rows` object into the list of its
top-level sections.  `None`, falsy dicts and dicts without `"Row"` all
yield the empty list. -/
def parseGLRows : RowsObj → List GLSection
  | RowsObj.withRow rs => parseRowList rs
  | _ => []

/-- The `for row in rows_obj["Row"]` loop body of `_parse_gl_rows`:
non-Section rows are skipped; a headerless Section becomes a
`"__direct__"` placeholder carrying only its own Data rows; a named
Section recursively parses its nested rows, absorbs any `"__direct__"`
children into its direct fields, and drops them from its children. -/
def parseRowList : List RawRow → List GLSection
  | [] => []
  | (RawRow.mk t hdr _ inner) :: rest =>
    if t = "Section" then
      let name := match hdr with | [] => "" | c :: _ => pyStrip c.value
      let aid := match hdr with | [] => "" | c :: _ => c.id
      let d := directTxns inner
      (if name = "" then
        GLSection.mk sentinelName aid d.1 d.2.1 [] d.2.2
      else
        let kids0 := parseGLRows inner
        let absorbed := kids0.filter (fun c => c.name = sentinelName)
        let kids := kids0.filter (fun c => ¬ c.name = sentinelName)
        GLSection.mk name aid (d.1 + sumDirectAmount absorbed)
          (d.2.1 + sumDirectCount absorbed) kids
          (d.2.2 ++ concatTransactions absorbed)) :: parseRowList rest
    else parseRowList rest
end

/-- `_find_gl_section` (the source's two-argument form): depth-first scan
returning the first section whose name equals `name` or ends with
`" " ++ name`, descending into children before moving to later siblings. -/
def findGLSection : List GLSection → String → Option GLSection
  | [], _ => none
  | GLSection.mk n i da dc cs ts :: rest, name =>
    if n = name ∨ strEndsWith n (" " ++ name) then some (GLSection.mk n i da dc cs ts)
    else
      match findGLSection cs name with
      | some f => some f
      | none => findGLSection rest name

/-- An account-tree node as built by `_discover_account_tree`:
`{"name": ..., "id": ..., "children": [...]}`. -/
inductive AcctNode : Type where
  | mk (name id : String) (children : List AcctNode)

def AcctNode.name : AcctNode → String
  | .mk n _ _ => n

def AcctNode.children : AcctNode → List AcctNode
  | .mk _ _ cs => cs

mutual
/-- `_compute_subtotal`: for a leaf account node, the matched section's
full rollup (or zero when unmatched); for a node with children, the
matched section's direct values plus the recursive subtotals of the
account-tree children. -/
def computeSubtotal (gl : List GLSection) : AcctNode → ℚ × ℕ
  | AcctNode.mk name _ [] =>
    match findGLSection gl name with
    | some s => (s.total_amount, s.total_count)
    | none => (0, 0)
  | AcctNode.mk name _ (c :: cs) =>
    let base : ℚ × ℕ :=
      match findGLSection gl name with
      | some s => (s.direct_amount, s.direct_count)
      | none => (0, 0)
    subtotalKids gl base (c :: cs)

/-- The `for child in node["children"]` accumulation loop of
`_compute_subtotal`. -/
def subtotalKids (gl : List GLSection) (acc : ℚ × ℕ) : List AcctNode → ℚ × ℕ
  | [] => acc
  | c :: rest =>
    let r := computeSubtotal gl c
    subtotalKids gl (acc.1 + r.1, acc.2 + r.2) rest
end

/-- `REPORT_WIDTH` from the source. -/
def REPORT_WIDTH : ℕ := 72

/-- A run of `n` spaces. -/
def spaces (n : ℕ) : String := String.mk (List.replicate n ' ')

/-- `_pad_line`: `prefix + label`, then `max(1, REPORT_WIDTH - total_len)`
spaces, then the amount string (Python's negative difference under `max`
coincides with truncated `ℕ` subtraction). -/
def padLine (label amtStr : String) (pre : String := "") : String :=
  let totalLen := pre.length + label.length + amtStr.length
  let pad := max 1 (REPORT_WIDTH - totalLen)
  pre ++ label ++ spaces pad ++ amtStr

/-- Grouping step of Python's `{:,}` format: insert a comma after every
three digits, working over the reversed digit list. -/
def commaGroupRev : List Char → List Char
  | a :: b :: c :: d :: rest => a :: b :: c :: ',' :: commaGroupRev (d :: rest)
  | l => l

/-- Two-digit rendering of a cents value `< 100`. -/
def twoDigits (n : ℕ) : String :=
  if n < 10 then "0" ++ toString n else toString n

/-- Python `f"{x:,.2f}"` on a non-negative amount: round to cents and
render with thousands separators.  Exact on two-decimal inputs (the only
ones the claims use). -/
def commaFmt2 (q : ℚ) : String :=
  let cents := (Int.floor (q * 100 + 1 / 2)).toNat
  let ipDigits := (toString (cents / 100)).toList
  String.mk (commaGroupRev ipDigits.reverse).reverse ++ "." ++ twoDigits (cents % 100)

/-- `_format_amount`: negative amounts put the sign before the currency
prefix. -/
def formatAmount (amount : ℚ) (currency : String := "") : String :=
  if amount < 0 then "-" ++ currency ++ commaFmt2 (-amount)
  else currency ++ commaFmt2 amount

/-- `strftime('%B')` month names. -/
def monthName : ℕ → String
  | 1 => "January"
  | 2 => "February"
  | 3 => "March"
  | 4 => "April"
  | 5 => "May"
  | 6 => "June"
  | 7 => "July"
  | 8 => "August"
  | 9 => "September"
  | 10 => "October"
  | 11 => "November"
  | 12 => "December"
  | _ => ""

/-- Year field of a `"YYYY-MM-DD"` string (`strptime(s, "%Y-%m-%d").year`;
the source assumes well-formed dates, `strptime` raising otherwise). -/
def isoYear (s : String) : ℕ := digitsVal (s.toList.take 4)

/-- Month field of a `"YYYY-MM-DD"` string. -/
def isoMonth (s : String) : ℕ := digitsVal ((s.toList.drop 5).take 2)

/-- `_format_date_range` as the source writes it: same month and year →
`"{Month}, {Year}"`; same year → `"{StartMonth}-{EndMonth}, {Year}"`;
otherwise `"{StartMonth} {StartYear}-{EndMonth} {EndYear}"`.  (No branch
of the source ever emits day numbers.) -/
def formatDateRange (start stop : String) : String :=
  let sy := isoYear start
  let sm := isoMonth start
  let ey := isoYear stop
  let em := isoMonth stop
  if sm = em ∧ sy = ey then monthName sm ++ ", " ++ toString sy
  else if sy = ey then monthName sm ++ "-" ++ monthName em ++ ", " ++ toString sy
  else monthName sm ++ " " ++ toString sy ++ "-" ++ monthName em ++ " " ++ toString ey

/-- Python-dict insertion into an association list: overwrite an existing
binding in place, else append. -/
def dictInsert (d : List (String × GLSection)) (k : String) (v : GLSection) :
    List (String × GLSection) :=
  if d.any (fun p => p.1 = k) then d.map (fun p => if p.1 = k then (k, v) else p)
  else d ++ [(k, v)]

/-- Python-dict lookup in an association list. -/
def dictGet? (d : List (String × GLSection)) (k : String) : Option GLSection :=
  (d.find? (fun p => p.1 = k)).map (fun p => p.2)

mutual
/-- Modelled from the spec: `_build_section_index` exists only in the
repository's tests, not under `src` (the `src` revision predates the
Section Index).  Spec §4.3: a single pre-order traversal of the parsed
section list and, recursively, the children, inserting each section
under both its `name` and its `id` key whenever each is non-empty. -/
def buildIndexFrom (d : List (String × GLSection)) : List GLSection →
    List (String × GLSection)
  | [] => d
  | GLSection.mk n i da dc cs ts :: rest =>
    let s := GLSection.mk n i da dc cs ts
    let d1 := if n = "" then d else dictInsert d n s
    let d2 := if i = "" then d1 else dictInsert d1 i s
    buildIndexFrom (buildIndexFrom d2 cs) rest
end

/-- Modelled from the spec: entry point of the Section Index build. -/
def buildSectionIndex (sections : List GLSection) : List (String × GLSection) :=
  buildIndexFrom [] sections

/-- Modelled from the spec: the indexed `_find_gl_section(idx, name, id)`
of the newest revision (present only in the tests under `src`).  Spec
§4.3 lookup contract: (1) if an id is given and present in the index,
return that section; (2) else if the name is an exact key, return it;
(3) else scan the indexed sections for one whose name ends with
`" " ++ name`; (4) else not-found. -/
def findSectionIdx (idx : List (String × GLSection)) (name : String)
    (id : String := "") : Option GLSection :=
  match (if id = "" then none else dictGet? idx id) with
  | some s => some s
  | none =>
    match dictGet? idx name with
    | some s => some s
    | none => ((idx.find? (fun p => strEndsWith p.2.name (" " ++ name))).map (fun p => p.2))

/-- Python `f"{s:<w}"`: left-justify in `w` columns (over-long strings
are kept whole). -/
def padRightW (s : String) (w : ℕ) : String := s ++ spaces (w - s.length)

/-- Python `f"{s:>w}"`: right-justify in `w` columns. -/
def padLeftW (s : String) (w : ℕ) : String := spaces (w - s.length) ++ s

/-- Insertion step of a stable ascending sort by transaction date. -/
def insertByDate (t : GLTransaction) : List GLTransaction → List GLTransaction
  | [] => [t]
  | u :: rest => if u.date < t.date then u :: insertByDate t rest else t :: u :: rest

/-- Ascending stable sort by transaction date
(`txns.sort(key=lambda t: t.date)` / `sorted(txns, key=...)`; Python's
sort is stable, and the stable ascending reordering is unique). -/
def sortByDate : List GLTransaction → List GLTransaction
  | [] => []
  | t :: rest => insertByDate t (sortByDate rest)

/-!
## A reference-passing model of the transaction lists (claim C9)

Python's `GLSection.transactions` is a mutable list object held by the
section; `all_transactions` builds a *fresh* list (`list(self.transactions)`
then `extend`), and `_build_txns_report` sorts that fresh list in place.
To state that the render phase never mutates a parsed section, the model
below makes the list objects explicit: a store of transaction lists,
sections holding indices into it, and `_build_txns_report` threading the
store so that its one in-place `sort` is visible as a store update on the
freshly allocated cell.
-/

/-- The heap of Python list objects holding transactions. -/
abbrev TxnStore := List (List GLTransaction)

/-- A `GLSection` whose `transactions` attribute is a reference into a
`TxnStore` (the fields the render phase reads). -/
inductive GLSectionR : Type where
  | mk (name id : String) (direct_amount : ℚ) (direct_count : ℕ)
       (children : List GLSectionR) (txnsRef : ℕ)

def GLSectionR.name : GLSectionR → String
  | .mk n _ _ _ _ _ => n

def GLSectionR.direct_amount : GLSectionR → ℚ
  | .mk _ _ da _ _ _ => da

def GLSectionR.direct_count : GLSectionR → ℕ
  | .mk _ _ _ dc _ _ => dc

def GLSectionR.children : GLSectionR → List GLSectionR
  | .mk _ _ _ _ cs _ => cs

def GLSectionR.txnsRef : GLSectionR → ℕ
  | .mk _ _ _ _ _ r => r

/-- The value of a section's `transactions` list in a store. -/
def GLSectionR.transactionsIn (σ : TxnStore) (s : GLSectionR) : List GLTransaction :=
  σ.getD s.txnsRef []

mutual
/-- `all_transactions` in the store model: `txns = list(self.transactions)`
(a fresh list value) extended with each child's `all_transactions`. -/
def GLSectionR.allTransactionsIn (σ : TxnStore) : GLSectionR → List GLTransaction
  | .mk _ _ _ _ cs r => σ.getD r [] ++ allTransactionsListIn σ cs

def allTransactionsListIn (σ : TxnStore) : List GLSectionR → List GLTransaction
  | [] => []
  | s :: rest => s.allTransactionsIn σ ++ allTransactionsListIn σ rest
end

/-- `_find_gl_section` over store-model sections (same algorithm as
`findGLSection`). -/
def findGLSectionR : List GLSectionR → String → Option GLSectionR
  | [], _ => none
  | GLSectionR.mk n i da dc cs r :: rest, name =>
    if n = name ∨ strEndsWith n (" " ++ name) then some (GLSectionR.mk n i da dc cs r)
    else
      match findGLSectionR cs name with
      | some f => some f
      | none => findGLSectionR rest name

/-- One rendered body line pair of `_build_txns_report`: the fixed-width
transaction line, plus a continuation line when the memo is non-empty. -/
def txnLedgerLines (currency : String) (t : GLTransaction) : List String :=
  let acctShort := if t.account = "" then "" else lastColonSeg t.account
  let amtStr := formatAmount t.amount currency
  let main := padRightW t.date 12 ++ " " ++ padRightW t.txn_type 14 ++ " " ++
    padLeftW amtStr 14 ++ "  " ++ acctShort
  if t.memo = "" then [main]
  else
    let memo := if t.memo.length > 68 then pyTake t.memo 68 ++ "…" else t.memo
    [main, spaces 12 ++ " " ++ memo]

/-- A run of `REPORT_WIDTH` box-drawing dashes (`"─" * REPORT_WIDTH`). -/
def dashRule : String := String.mk (List.replicate REPORT_WIDTH '─')

/-- `_build_txns_report` in the store model.  The fresh list built by
`all_transactions` is allocated at the end of the store, the in-place
`txns.sort(key=lambda t: t.date)` updates that cell only, and the lines
are read back from it.  Returns the lines together with the store as it
stands after the call. -/
def buildTxnsReportSt (σ : TxnStore) (gl : List GLSectionR) (node : AcctNode)
    (currency : String) : List String × TxnStore :=
  match findGLSectionR gl node.name with
  | none => (["(no transactions)"], σ)
  | some s =>
    let txns := s.allTransactionsIn σ
    if txns.isEmpty then (["(no transactions)"], σ)
    else
      let ref := σ.length
      let σ2 := σ ++ [sortByDate txns]
      let sorted := σ2.getD ref []
      let header := padRightW "Date" 12 ++ " " ++ padRightW "Type" 14 ++ " " ++
        padLeftW "Amount" 14 ++ "  " ++ "Account"
      let body := (sorted.map (txnLedgerLines currency)).flatten
      let total := (sorted.map GLTransaction.amount).sum
      let footer := padRightW "TOTAL" 12 ++ " " ++ spaces 14 ++ " " ++
        padLeftW (formatAmount total currency) 14 ++ "  (" ++
        toString sorted.length ++ " transactions)"
      ([header, dashRule] ++ body ++ [dashRule, footer], σ2)

/-- `cust = t.customer or "(no customer)"`. -/
def custKey (t : GLTransaction) : String :=
  if t.customer = "" then "(no customer)" else t.customer

/-- The customer keys of a transaction list in first-appearance order
(Python `defaultdict` insertion order). -/
def custKeys (ts : List GLTransaction) : List String :=
  (ts.map custKey).foldl (fun acc k => if k ∈ acc then acc else acc ++ [k]) []

/-- Insertion step of the stable descending sort of customer keys by
absolute group total. -/
def insertByAbsDesc (v : String → ℚ) (c : String) : List String → List String
  | [] => [c]
  | u :: rest => if v c < v u then u :: insertByAbsDesc v c rest else c :: u :: rest

/-- `sorted(groups.keys(), key=lambda c: abs(sum(...)), reverse=True)`:
stable descending sort by absolute total. -/
def sortByAbsDesc (v : String → ℚ) : List String → List String
  | [] => []
  | c :: rest => insertByAbsDesc v c (sortByAbsDesc v rest)

/-- `_build_by_customer_report` in the store model: groups the matched
section's `all_transactions` by customer, orders groups by descending
absolute total (stable), and renders one subtotal line per group plus a
grand total.  No statement of the source writes to any list a section
holds, so the store comes back unchanged. -/
def buildByCustomerReportSt (σ : TxnStore) (gl : List GLSectionR) (node : AcctNode)
    (currency : String) : List String × TxnStore :=
  match findGLSectionR gl node.name with
  | none => (["(no transactions)"], σ)
  | some s =>
    let txns := s.allTransactionsIn σ
    if txns.isEmpty then (["(no transactions)"], σ)
    else
      let absTotal := fun c =>
        |((txns.filter (fun t => custKey t = c)).map GLTransaction.amount).sum|
      let sortedCusts := sortByAbsDesc absTotal (custKeys txns)
      let custLines := sortedCusts.map (fun c =>
        let ctxns := txns.filter (fun t => custKey t = c)
        padLine (c ++ " (" ++ toString ctxns.length ++ ")")
          (formatAmount ((ctxns.map GLTransaction.amount).sum) currency))
      let grand := (txns.map GLTransaction.amount).sum
      ([node.name, ""] ++ custLines ++
        ["", padLine ("TOTAL (" ++ toString txns.length ++ ")")
          (formatAmount grand currency)], σ)

mutual
/-- `total_amount` over store-model sections (reads only the numeric
fields, no transaction list). -/
def GLSectionR.total_amount : GLSectionR → ℚ
  | .mk _ _ da _ cs _ => da + totalAmountListR cs

def totalAmountListR : List GLSectionR → ℚ
  | [] => 0
  | s :: rest => s.total_amount + totalAmountListR rest
end

mutual
/-- `total_count` over store-model sections. -/
def GLSectionR.total_count : GLSectionR → ℕ
  | .mk _ _ _ dc cs _ => dc + totalCountListR cs

def totalCountListR : List GLSectionR → ℕ
  | [] => 0
  | s :: rest => s.total_count + totalCountListR rest
end

mutual
/-- `_compute_subtotal` over store-model sections. -/
def computeSubtotalR (gl : List GLSectionR) : AcctNode → ℚ × ℕ
  | AcctNode.mk name _ [] =>
    match findGLSectionR gl name with
    | some s => (s.total_amount, s.total_count)
    | none => (0, 0)
  | AcctNode.mk name _ (c :: cs) =>
    let base : ℚ × ℕ :=
      match findGLSectionR gl name with
      | some s => (s.direct_amount, s.direct_count)
      | none => (0, 0)
    subtotalKidsR gl base (c :: cs)

def subtotalKidsR (gl : List GLSectionR) (acc : ℚ × ℕ) : List AcctNode → ℚ × ℕ
  | [] => acc
  | c :: rest =>
    let r := computeSubtotalR gl c
    subtotalKidsR gl (acc.1 + r.1, acc.2 + r.2) rest
end

/-- `_compute_subtotal` over store-model sections: reads only
`direct_amount`/`direct_count`/`total_amount`-style fields, never a
transaction list, so it does not touch the store at all. -/
def computeSubtotalSt (σ : TxnStore) (gl : List GLSectionR) (node : AcctNode) :
    (ℚ × ℕ) × TxnStore :=
  (computeSubtotalR gl node, σ)

/-- `_append_txn_lines`: one padded line per transaction, date-sorted
(`sorted(txns, ...)` is a non-mutating copy), memo truncated to 40. -/
def appendTxnLines (currency : String) (indent : ℕ) (txns : List GLTransaction) :
    List String :=
  (sortByDate txns).map (fun t =>
    let memo := if t.memo.length > 40 then pyTake t.memo 40 ++ "…" else t.memo
    padLine (t.date ++ "  " ++ padRightW t.txn_type 12 ++ " " ++ memo)
      (formatAmount t.amount currency) (spaces (2 * indent)))

mutual
/-- `_build_report_lines` (tree and expanded renderer) in the store
model: every transaction access goes through `all_transactions` /
`sorted` copies, so the function only reads the store. -/
def buildReportLinesR (σ : TxnStore) (gl : List GLSectionR) (currency : String)
    (expanded : Bool) : AcctNode → ℕ → List String
  | AcctNode.mk name nid [], indent =>
    let pre := spaces (2 * indent)
    let sec := findGLSectionR gl (AcctNode.mk name nid []).name
    let amt := match sec with | some s => s.total_amount | none => 0
    let cnt := match sec with | some s => s.total_count | none => 0
    if cnt = 0 ∧ amt = 0 then []
    else
      padLine (name ++ " (" ++ toString cnt ++ ")") (formatAmount amt currency) pre ::
        (match sec with
         | some s => if expanded then
             appendTxnLines currency (indent + 1) (s.allTransactionsIn σ) else []
         | none => [])
  | AcctNode.mk name nid (c :: cs), indent =>
    let pre := spaces (2 * indent)
    let sub := computeSubtotalR gl (AcctNode.mk name nid (c :: cs))
    if sub.2 = 0 ∧ sub.1 = 0 then []
    else
      let sec := findGLSectionR gl name
      let ownAmt := match sec with | some s => s.direct_amount | none => 0
      let ownCnt := match sec with | some s => s.direct_count | none => 0
      let ownLines :=
        if 0 < ownCnt then
          padLine (name ++ " (" ++ toString ownCnt ++ ")")
            (formatAmount ownAmt currency) pre ::
            (match sec with
             | some s => if expanded then
                 appendTxnLines currency (indent + 1) (s.transactionsIn σ) else []
             | none => [])
        else [pre ++ name]
      ownLines ++ buildReportKidsR σ gl currency expanded (c :: cs) (indent + 1) ++
        [padLine ("Total for " ++ name) (formatAmount sub.1 currency) pre]

def buildReportKidsR (σ : TxnStore) (gl : List GLSectionR) (currency : String)
    (expanded : Bool) : List AcctNode → ℕ → List String
  | [], _ => []
  | c :: rest, indent =>
    buildReportLinesR σ gl currency expanded c indent ++
      buildReportKidsR σ gl currency expanded rest indent
end

/-- `_build_report_lines` with the store threaded through: no statement
of the source writes to a section-held list, so the store is returned as
received. -/
def buildReportLinesSt (σ : TxnStore) (gl : List GLSectionR) (node : AcctNode)
    (currency : String) (expanded : Bool) : List String × TxnStore :=
  (buildReportLinesR σ gl currency expanded node 0, σ)

/-!
## Concrete fixtures

The nested fixture described by the spec (§8) and used by the claims: a
top-level "Revenue" section (id "100") with children "Consulting Revenue"
(id "101", three transactions summing to 15700.00) and "Product Revenue"
(id "102", one transaction of 12000.00), plus one direct journal-entry
transaction of -500.00 on "Revenue" itself.
-/

/-- A well-formed 7-column Data row. -/
def dataRow (date ty tid num cust memo acct amt : String) : RawRow :=
  RawRow.mk "Data" []
    [⟨date, ""⟩, ⟨ty, tid⟩, ⟨num, ""⟩, ⟨cust, ""⟩, ⟨memo, ""⟩, ⟨acct, ""⟩, ⟨amt, ""⟩]
    (RowsObj.noRowKey false)

def consultingRaw : RawRow :=
  RawRow.mk "Section" [⟨"Consulting Revenue", "101"⟩] []
    (RowsObj.withRow
      [dataRow "2025-01-15" "Invoice" "5001" "1001" "Acme Corp" "Phase 1"
         "Consulting Revenue" "5000.00",
       dataRow "2025-02-15" "Invoice" "5002" "1002" "Acme Corp" "Phase 2"
         "Consulting Revenue" "5200.00",
       dataRow "2025-03-15" "Invoice" "5003" "1003" "Beta LLC" "Phase 3"
         "Consulting Revenue" "5500.00"])

def productRaw : RawRow :=
  RawRow.mk "Section" [⟨"Product Revenue", "102"⟩] []
    (RowsObj.withRow
      [dataRow "2025-04-01" "Invoice" "5004" "1004" "Gamma Inc" "License"
         "Product Revenue" "12000.00"])

def revenueRaw : RawRow :=
  RawRow.mk "Section" [⟨"Revenue", "100"⟩] []
    (RowsObj.withRow
      [consultingRaw, productRaw,
       dataRow "2025-05-01" "Journal Entry" "9001" "JE-1" "" "Reclass"
         "Revenue" "-500.00"])

/-- The parsed fixture sections. -/
def glFixture : List GLSection := parseGLRows (RowsObj.withRow [revenueRaw])

/-- The account-tree node for "Revenue" with its two children, as
`_discover_account_tree` would build it. -/
def revenueNode : AcctNode :=
  AcctNode.mk "Revenue" "100"
    [AcctNode.mk "Consulting Revenue" "101" [], AcctNode.mk "Product Revenue" "102" []]

/-- A top-level headerless Section row (for C10): one Data row of 42.50,
no `Header`. -/
def anonTopRow : RawRow :=
  RawRow.mk "Section" [] []
    (RowsObj.withRow
      [dataRow "2025-03-01" "Journal Entry" "901" "7" "" "adj" "Suspense" "42.50"])

/-- A malformed Data row (for C7): non-numeric amount in column 6. -/
def badCols : List ColCell :=
  [⟨"2025-01-15", ""⟩, ⟨"Invoice", "5001"⟩, ⟨"", ""⟩, ⟨"", ""⟩, ⟨"", ""⟩, ⟨"", ""⟩,
   ⟨"not-a-number", ""⟩]

def badDataRow : RawRow := RawRow.mk "Data" [] badCols (RowsObj.noRowKey false)

/-- The journal-entry transaction of the fixture. -/
def jeTxn : GLTransaction :=
  ⟨"2025-05-01", "Journal Entry", "9001", "JE-1", "", "Reclass", "Revenue", -500⟩

/-- The parsed "Consulting Revenue" section of the fixture. -/
def consultingSec : GLSection :=
  GLSection.mk "Consulting Revenue" "101" 15700 3 []
    [⟨"2025-01-15", "Invoice", "5001", "1001", "Acme Corp", "Phase 1",
      "Consulting Revenue", 5000⟩,
     ⟨"2025-02-15", "Invoice", "5002", "1002", "Acme Corp", "Phase 2",
      "Consulting Revenue", 5200⟩,
     ⟨"2025-03-15", "Invoice", "5003", "1003", "Beta LLC", "Phase 3",
      "Consulting Revenue", 5500⟩]

/-- The parsed "Product Revenue" section of the fixture. -/
def productSec : GLSection :=
  GLSection.mk "Product Revenue" "102" 12000 1 []
    [⟨"2025-04-01", "Invoice", "5004", "1004", "Gamma Inc", "License",
      "Product Revenue", 12000⟩]

/-- The parsed "Revenue" section of the fixture. -/
def revenueSec : GLSection :=
  GLSection.mk "Revenue" "100" (-500) 1 [consultingSec, productSec] [jeTxn]

mutual
/-- The C3 invariant, as a recursive predicate: no section in this
section's children list (recursively) carries the anonymous sentinel
name. -/
def sectionOk : GLSection → Bool
  | .mk _ _ _ _ cs _ => sectionsOk cs

/-- All sections of a children list are sentinel-free members: none is
named `"__direct__"`, and each satisfies the invariant recursively. -/
def sectionsOk : List GLSection → Bool
  | [] => true
  | s :: rest => (s.name != sentinelName) && sectionOk s && sectionsOk rest
end

/-! ## Helper lemmas -/

theorem totalAmountList_eq_sum (l : List GLSection) :
    totalAmountList l = (l.map GLSection.total_amount).sum := by
  induction l with
  | nil => simp [totalAmountList]
  | cons s rest ih => simp [totalAmountList, ih]

theorem totalCountList_eq_sum (l : List GLSection) :
    totalCountList l = (l.map GLSection.total_count).sum := by
  induction l with
  | nil => simp [totalCountList]
  | cons s rest ih => simp [totalCountList, ih]

theorem spaces_length (n : ℕ) : (spaces n).length = n := by
  simp [spaces, String.length]

/-! ## Claims -/

/-- C5: for every GL section, regardless of nesting depth and including
freshly constructed sections with manually set field values,
`total_amount` equals `direct_amount` plus the sum of `total_amount` over
its children, and `total_count` equals `direct_count` plus the sum of
`total_count` over its children. -/
theorem total_amount_total_count_recursion (s : GLSection) :
    s.total_amount = s.direct_amount + (s.children.map GLSection.total_amount).sum ∧
    s.total_count = s.direct_count + (s.children.map GLSection.total_count).sum := by
  cases s with
  | mk n i da dc cs ts =>
    exact ⟨by simp [GLSection.total_amount, GLSection.direct_amount, GLSection.children,
        totalAmountList_eq_sum],
      by simp [GLSection.total_count, GLSection.direct_count, GLSection.children,
        totalCountList_eq_sum]⟩

/-- C6: the GL row parser returns the empty section list (and, being a
total function, cannot raise) on Python `None`, on a falsy or `"Row"`-less
dict (either truthiness), and on a dict whose `Row` list is empty. -/
theorem parseGLRows_empty_inputs :
    parseGLRows RowsObj.pyNone = [] ∧
    parseGLRows (RowsObj.noRowKey false) = [] ∧
    parseGLRows (RowsObj.noRowKey true) = [] ∧
    parseGLRows (RowsObj.withRow []) = [] := by
  refine ⟨?_, ?_, ?_, ?_⟩ <;> simp [parseGLRows, parseRowList]

/-- C8: whenever prefix, label and amount together fit in 71 characters
the padded line is exactly `REPORT_WIDTH = 72` characters long; and for
every input, the line is the prefix and label followed by at least one
space and then the untruncated amount string. -/
theorem padLine_spec (label amt pre : String) :
    (pre.length + label.length + amt.length ≤ 71 →
      (padLine label amt pre).length = 72) ∧
    ∃ p, 1 ≤ p ∧ padLine label amt pre = pre ++ label ++ spaces p ++ amt := by
  constructor
  · intro h
    simp only [padLine, String.length_append, spaces_length, REPORT_WIDTH]
    omega
  · exact ⟨max 1 (REPORT_WIDTH - (pre.length + label.length + amt.length)),
      le_max_left _ _, rfl⟩

/-- Witness for C8 at the spec's concrete instance:
`_pad_line("Revenue", "1,000.00")` is exactly 72 characters long. -/
theorem padLine_spec_witness :
    "".length + "Revenue".length + "1,000.00".length ≤ 71 ∧
    (padLine "Revenue" "1,000.00").length = 72 :=
  ⟨by decide, (padLine_spec "Revenue" "1,000.00" "").1 (by decide)⟩

/-- C4 (against the `src` code): `_format_date_range` matches the claim on
the three full-month-boundary literals, but on the partial-date literal
`("2024-11-15", "2025-02-10")` it returns `"November 2024-February 2025"`
— the source has no branch that emits day numbers — not the claimed
`"15 November 2024-10 February 2025"` that the repository's own tests
assert. -/
theorem formatDateRange_literals :
    formatDateRange "2025-01-01" "2025-01-31" = "January, 2025" ∧
    formatDateRange "2025-01-01" "2025-03-31" = "January-March, 2025" ∧
    formatDateRange "2024-11-01" "2025-02-28" = "November 2024-February 2025" ∧
    formatDateRange "2024-11-15" "2025-02-10" = "November 2024-February 2025" ∧
    ¬ formatDateRange "2024-11-15" "2025-02-10" = "15 November 2024-10 February 2025" := by
  refine ⟨?_, ?_, ?_, ?_, ?_⟩ <;> decide

theorem pyFloat_5000 : pyFloat? "5000.00" = some 5000 := by
  have h : pyFloatLit? "5000.00" = some ⟨false, 5000, 0, 2, false, 0⟩ := by decide
  simp [pyFloat?, h, FloatLit.val]

theorem pyFloat_5200 : pyFloat? "5200.00" = some 5200 := by
  have h : pyFloatLit? "5200.00" = some ⟨false, 5200, 0, 2, false, 0⟩ := by decide
  simp [pyFloat?, h, FloatLit.val]

theorem pyFloat_5500 : pyFloat? "5500.00" = some 5500 := by
  have h : pyFloatLit? "5500.00" = some ⟨false, 5500, 0, 2, false, 0⟩ := by decide
  simp [pyFloat?, h, FloatLit.val]

theorem pyFloat_12000 : pyFloat? "12000.00" = some 12000 := by
  have h : pyFloatLit? "12000.00" = some ⟨false, 12000, 0, 2, false, 0⟩ := by decide
  simp [pyFloat?, h, FloatLit.val]

theorem pyFloat_neg500 : pyFloat? "-500.00" = some (-500) := by
  have h : pyFloatLit? "-500.00" = some ⟨true, 500, 0, 2, false, 0⟩ := by decide
  simp [pyFloat?, h, FloatLit.val]

theorem pyFloat_42_50 : pyFloat? "42.50" = some (85 / 2) := by
  have h : pyFloatLit? "42.50" = some ⟨false, 42, 50, 2, false, 0⟩ := by decide
  simp [pyFloat?, h, FloatLit.val]
  norm_num

theorem pyFloat_nan : pyFloat? "not-a-number" = none := by
  have h : pyFloatLit? "not-a-number" = none := by decide
  simp [pyFloat?, h]

/-- C10: on a raw Rows input whose top level holds a headerless Section
row, the parser's output keeps the `"__direct__"` placeholder at the top
level (absorption happens only inside a named parent), carrying the
anonymous row's direct amount, count and transaction. -/
theorem parse_keeps_top_level_anonymous :
    (parseGLRows (RowsObj.withRow [anonTopRow])).map GLSection.name = [sentinelName] ∧
    sentinelName = "__direct__" ∧
    (parseGLRows (RowsObj.withRow [anonTopRow])).map GLSection.direct_amount = [85 / 2] ∧
    (parseGLRows (RowsObj.withRow [anonTopRow])).map GLSection.direct_count = [1] ∧
    (parseGLRows (RowsObj.withRow [anonTopRow])).map GLSection.children = [[]] := by
  refine ⟨?_, rfl, ?_, ?_, ?_⟩ <;>
    simp [parseGLRows, parseRowList, anonTopRow, dataRow, directTxns, foldTxnRows,
      parseTxnFromRow, colV, colI, pyFloat_42_50, sentinelName,
      GLSection.name, GLSection.direct_amount, GLSection.direct_count, GLSection.children,
      pyStrip]

set_option maxRecDepth 4000

theorem pyStrip_Revenue : pyStrip "Revenue" = "Revenue" := by decide

theorem pyStrip_Consulting : pyStrip "Consulting Revenue" = "Consulting Revenue" := by decide

theorem pyStrip_Product : pyStrip "Product Revenue" = "Product Revenue" := by decide

theorem sew_rev_cons : strEndsWith "Revenue" " Consulting Revenue" = false := by decide

theorem sew_rev_prod : strEndsWith "Revenue" " Product Revenue" = false := by decide

theorem sew_cons_prod : strEndsWith "Consulting Revenue" " Product Revenue" = false := by decide

theorem subtotalKids_eq (gl : List GLSection) (l : List AcctNode) (acc : ℚ × ℕ) :
    subtotalKids gl acc l =
      (acc.1 + (l.map fun k => (computeSubtotal gl k).1).sum,
       acc.2 + (l.map fun k => (computeSubtotal gl k).2).sum) := by
  induction l generalizing acc with
  | nil => simp [subtotalKids]
  | cons c rest ih =>
    simp only [subtotalKids, ih, List.map_cons, List.sum_cons]
    exact Prod.ext (by ring) (by omega)

theorem consulting_eval :
    parseRowList [consultingRaw] =
      [GLSection.mk "Consulting Revenue" "101" 15700 3 []
        [⟨"2025-01-15", "Invoice", "5001", "1001", "Acme Corp", "Phase 1",
          "Consulting Revenue", 5000⟩,
         ⟨"2025-02-15", "Invoice", "5002", "1002", "Acme Corp", "Phase 2",
          "Consulting Revenue", 5200⟩,
         ⟨"2025-03-15", "Invoice", "5003", "1003", "Beta LLC", "Phase 3",
          "Consulting Revenue", 5500⟩]] := by
  simp [parseRowList, parseGLRows, consultingRaw, dataRow, directTxns, foldTxnRows,
    parseTxnFromRow, colV, colI, pyFloat_5000, pyFloat_5200, pyFloat_5500,
    pyStrip_Consulting, sentinelName, sumDirectAmount, sumDirectCount,
    concatTransactions, GLSection.name]
  norm_num

theorem product_eval :
    parseRowList [productRaw] =
      [GLSection.mk "Product Revenue" "102" 12000 1 []
        [⟨"2025-04-01", "Invoice", "5004", "1004", "Gamma Inc", "License",
          "Product Revenue", 12000⟩]] := by
  simp [parseRowList, parseGLRows, productRaw, dataRow, directTxns, foldTxnRows,
    parseTxnFromRow, colV, colI, pyFloat_12000, pyStrip_Product, sentinelName,
    sumDirectAmount, sumDirectCount, concatTransactions, GLSection.name]

theorem parseRowList_cons₂ (x y : RawRow) (rest : List RawRow) :
    parseRowList (x :: y :: rest) = parseRowList [x] ++ parseRowList (y :: rest) := by
  cases x with
  | mk t hdr cd inner => by_cases h : t = "Section" <;> simp [parseRowList, h]

theorem glFixture_eval :
    glFixture =
      [GLSection.mk "Revenue" "100" (-500) 1
        [GLSection.mk "Consulting Revenue" "101" 15700 3 []
          [⟨"2025-01-15", "Invoice", "5001", "1001", "Acme Corp", "Phase 1",
            "Consulting Revenue", 5000⟩,
           ⟨"2025-02-15", "Invoice", "5002", "1002", "Acme Corp", "Phase 2",
            "Consulting Revenue", 5200⟩,
           ⟨"2025-03-15", "Invoice", "5003", "1003", "Beta LLC", "Phase 3",
            "Consulting Revenue", 5500⟩],
         GLSection.mk "Product Revenue" "102" 12000 1 []
          [⟨"2025-04-01", "Invoice", "5004", "1004", "Gamma Inc", "License",
            "Product Revenue", 12000⟩]]
        [⟨"2025-05-01", "Journal Entry", "9001", "JE-1", "", "Reclass",
          "Revenue", -500⟩]] := by
  have hje : parseRowList [dataRow "2025-05-01" "Journal Entry" "9001" "JE-1" ""
      "Reclass" "Revenue" "-500.00"] = [] := by
    simp [parseRowList, dataRow]
  have hkids : parseGLRows (RowsObj.withRow
      [consultingRaw, productRaw,
       dataRow "2025-05-01" "Journal Entry" "9001" "JE-1" "" "Reclass"
         "Revenue" "-500.00"]) =
      [GLSection.mk "Consulting Revenue" "101" 15700 3 []
        [⟨"2025-01-15", "Invoice", "5001", "1001", "Acme Corp", "Phase 1",
          "Consulting Revenue", 5000⟩,
         ⟨"2025-02-15", "Invoice", "5002", "1002", "Acme Corp", "Phase 2",
          "Consulting Revenue", 5200⟩,
         ⟨"2025-03-15", "Invoice", "5003", "1003", "Beta LLC", "Phase 3",
          "Consulting Revenue", 5500⟩],
       GLSection.mk "Product Revenue" "102" 12000 1 []
        [⟨"2025-04-01", "Invoice", "5004", "1004", "Gamma Inc", "License",
          "Product Revenue", 12000⟩]] := by
    rw [parseGLRows, parseRowList_cons₂, parseRowList_cons₂, consulting_eval,
      product_eval, hje]
    simp
  have hd : directTxns (RowsObj.withRow
      [consultingRaw, productRaw,
       dataRow "2025-05-01" "Journal Entry" "9001" "JE-1" "" "Reclass"
         "Revenue" "-500.00"]) =
      (-500, 1, [⟨"2025-05-01", "Journal Entry", "9001", "JE-1", "", "Reclass",
        "Revenue", -500⟩]) := by
    simp [directTxns, foldTxnRows, consultingRaw, productRaw, dataRow,
      parseTxnFromRow, colV, colI, pyFloat_neg500]
  simp only [glFixture, parseGLRows]
  simp only [revenueRaw, parseRowList, pyStrip_Revenue]
  simp only [hkids, hd]
  simp [sentinelName, sumDirectAmount, sumDirectCount, concatTransactions,
    GLSection.name, GLSection.direct_amount, GLSection.direct_count,
    GLSection.transactions]


theorem glFixture_eval' : glFixture = [revenueSec] := by
  rw [glFixture_eval]
  simp only [revenueSec, consultingSec, productSec, jeTxn]

theorem computeSubtotal_leaf (gl : List GLSection) (n i : String) :
    computeSubtotal gl (AcctNode.mk n i []) =
      ((findGLSection gl n).elim (0, 0) fun s => (s.total_amount, s.total_count)) := by
  cases h : findGLSection gl n <;> simp [computeSubtotal, h]

theorem computeSubtotal_node (gl : List GLSection) (n i : String) (c : AcctNode)
    (cs : List AcctNode) :
    computeSubtotal gl (AcctNode.mk n i (c :: cs)) =
      (((findGLSection gl n).elim (0, 0) fun s => (s.direct_amount, s.direct_count)).1 +
          ((c :: cs).map fun k => (computeSubtotal gl k).1).sum,
       ((findGLSection gl n).elim (0, 0) fun s => (s.direct_amount, s.direct_count)).2 +
          ((c :: cs).map fun k => (computeSubtotal gl k).2).sum) := by
  cases h : findGLSection gl n <;> simp [computeSubtotal, h, subtotalKids_eq]

theorem findRev : findGLSection [revenueSec] "Revenue" = some revenueSec := by
  simp [revenueSec, findGLSection]

theorem findConsKids :
    findGLSection [consultingSec, productSec] "Consulting Revenue" = some consultingSec := by
  simp only [consultingSec, productSec]
  simp [findGLSection]

theorem findProdKids :
    findGLSection [consultingSec, productSec] "Product Revenue" = some productSec := by
  simp only [consultingSec, productSec]
  simp [findGLSection, sew_cons_prod]

theorem findCons : findGLSection [revenueSec] "Consulting Revenue" = some consultingSec := by
  simp only [revenueSec]
  simp [findGLSection, sew_rev_cons, findConsKids]

theorem findProd : findGLSection [revenueSec] "Product Revenue" = some productSec := by
  simp only [revenueSec]
  simp [findGLSection, sew_rev_prod, findProdKids]

theorem consulting_totals :
    consultingSec.total_amount = 15700 ∧ consultingSec.total_count = 3 := by
  constructor <;>
    simp [consultingSec, GLSection.total_amount, totalAmountList,
      GLSection.total_count, totalCountList]

theorem product_totals :
    productSec.total_amount = 12000 ∧ productSec.total_count = 1 := by
  constructor <;>
    simp [productSec, GLSection.total_amount, totalAmountList,
      GLSection.total_count, totalCountList]

theorem computeSubtotal_leaf_found {gl : List GLSection} {n : String} {s : GLSection}
    (i : String) (h : findGLSection gl n = some s) :
    computeSubtotal gl (AcctNode.mk n i []) = (s.total_amount, s.total_count) := by
  simp [computeSubtotal, h]

theorem computeSubtotal_node_found {gl : List GLSection} {n : String} {s : GLSection}
    (i : String) (c : AcctNode) (cs : List AcctNode)
    (h : findGLSection gl n = some s) :
    computeSubtotal gl (AcctNode.mk n i (c :: cs)) =
      subtotalKids gl (s.direct_amount, s.direct_count) (c :: cs) := by
  simp [computeSubtotal, h]

theorem subtotalKids_nil (gl : List GLSection) (acc : ℚ × ℕ) :
    subtotalKids gl acc [] = acc := by
  simp [subtotalKids]

theorem subtotalKids_cons (gl : List GLSection) (acc : ℚ × ℕ) (c : AcctNode)
    (rest : List AcctNode) :
    subtotalKids gl acc (c :: rest) =
      subtotalKids gl (acc.1 + (computeSubtotal gl c).1, acc.2 + (computeSubtotal gl c).2)
        rest := by
  simp [subtotalKids]

theorem subtotal_fixture : computeSubtotal glFixture revenueNode = (27200, 5) := by
  rw [glFixture_eval']
  show computeSubtotal [revenueSec]
    (AcctNode.mk "Revenue" "100"
      [AcctNode.mk "Consulting Revenue" "101" [], AcctNode.mk "Product Revenue" "102" []]) =
    (27200, 5)
  rw [computeSubtotal_node_found "100" _ _ findRev]
  rw [subtotalKids_cons, computeSubtotal_leaf_found "101" findCons]
  rw [subtotalKids_cons, computeSubtotal_leaf_found "102" findProd]
  rw [subtotalKids_nil]
  rw [consulting_totals.1, consulting_totals.2, product_totals.1, product_totals.2]
  show (revenueSec.direct_amount + 15700 + 12000, revenueSec.direct_count + 3 + 1) = _
  rw [show revenueSec.direct_amount = -500 from rfl,
    show revenueSec.direct_count = 1 from rfl]
  norm_num

/-- C2: `_compute_subtotal` returns, at a leaf account node, the matched
section's full rollup — `(0, 0)` when unmatched — and, at a node with
children, the matched section's direct amount and count — zero when
unmatched — plus the recursively summed subtotals of the account-tree
children.  On the spec's nested fixture ("Revenue", id "100", with
children "Consulting Revenue" id "101" summing to 15700.00 over three
transactions and "Product Revenue" id "102" with one 12000.00
transaction, plus a direct -500.00 journal entry on "Revenue") it
returns total 27200.00 with count 5 = 3 + 1 + 1. -/
theorem computeSubtotal_spec :
    (∀ gl n i, computeSubtotal gl (AcctNode.mk n i []) =
      ((findGLSection gl n).elim (0, 0) fun s => (s.total_amount, s.total_count))) ∧
    (∀ gl n i c cs,
      computeSubtotal gl (AcctNode.mk n i (c :: cs)) =
        (((findGLSection gl n).elim (0, 0) fun s => (s.direct_amount, s.direct_count)).1 +
            ((c :: cs).map fun k => (computeSubtotal gl k).1).sum,
         ((findGLSection gl n).elim (0, 0) fun s => (s.direct_amount, s.direct_count)).2 +
            ((c :: cs).map fun k => (computeSubtotal gl k).2).sum)) ∧
    computeSubtotal glFixture revenueNode = (27200, 5) :=
  ⟨computeSubtotal_leaf, computeSubtotal_node, subtotal_fixture⟩

/-- C7: a Data row whose column list is empty/short, whose column-0 value
is the "Beginning Balance" sentinel, or whose column-6 amount is empty or
non-numeric parses to no transaction, and such a row contributes nothing
to the enclosing section's direct accumulation loop nor to the section
list a row list parses to (the parse never fails; the row is silently
dropped wherever it sits). -/
theorem malformed_txn_row_spec (cols : List ColCell) (r : RawRow) (xs ys : List RawRow)
    (hbad : colV cols 0 = "Beginning Balance" ∨ cols.length < 7 ∨
      pyFloat? (colV cols 6) = none)
    (hr : r.rtype = "Data") (hc : r.colData = cols) :
    parseTxnFromRow cols = none ∧
    foldTxnRows (xs ++ r :: ys) = foldTxnRows (xs ++ ys) ∧
    parseRowList (xs ++ r :: ys) = parseRowList (xs ++ ys) := by
  have h1 : parseTxnFromRow cols = none := by
    by_cases he : cols.isEmpty
    · simp [parseTxnFromRow, he]
    · rcases hbad with hb | hb | hb
      · simp [parseTxnFromRow, hb]
      · have hlt : ¬ 6 < cols.length := by omega
        simp [parseTxnFromRow, he, hlt]
      · by_cases h7 : 6 < cols.length
        · by_cases hamt : colV cols 6 = ""
          · simp [parseTxnFromRow, he, h7, hamt]
          · simp [parseTxnFromRow, he, h7, hamt, hb]
        · simp [parseTxnFromRow, he, h7]
  refine ⟨h1, ?_, ?_⟩
  · induction xs with
    | nil =>
      cases r with
      | mk t hdr cd inner =>
        simp only [RawRow.rtype] at hr
        simp only [RawRow.colData] at hc
        subst hr hc
        simp [foldTxnRows, h1]
    | cons x rest ih =>
      cases x with
      | mk t2 hd2 cd2 in2 => simp [foldTxnRows, ih]
  · induction xs with
    | nil =>
      cases r with
      | mk t hdr cd inner =>
        simp only [RawRow.rtype] at hr
        subst hr
        simp [parseRowList]
    | cons x rest ih =>
      cases x with
      | mk t2 hd2 cd2 in2 => simp [parseRowList, ih]

/-- Witness for C7 at a concrete malformed row: a 7-column Data row whose
amount cell is `"not-a-number"` is dropped and contributes nothing. -/
theorem malformed_txn_row_spec_witness :
    (colV badCols 0 = "Beginning Balance" ∨ badCols.length < 7 ∨
      pyFloat? (colV badCols 6) = none) ∧
    badDataRow.rtype = "Data" ∧ badDataRow.colData = badCols ∧
    (parseTxnFromRow badCols = none ∧
     foldTxnRows ([] ++ badDataRow :: []) = foldTxnRows ([] ++ []) ∧
     parseRowList ([] ++ badDataRow :: []) = parseRowList ([] ++ [])) := by
  have hb : pyFloat? (colV badCols 6) = none := by
    rw [show colV badCols 6 = "not-a-number" from rfl]
    exact pyFloat_nan
  exact ⟨Or.inr (Or.inr hb), rfl, rfl,
    malformed_txn_row_spec badCols badDataRow [] [] (Or.inr (Or.inr hb)) rfl rfl⟩

theorem sectionsOk_iff (l : List GLSection) :
    sectionsOk l = true ↔ ∀ s ∈ l, s.name ≠ sentinelName ∧ sectionOk s = true := by
  induction l with
  | nil => simp [sectionsOk]
  | cons s rest ih => simp [sectionsOk, ih, and_assoc]


theorem parseRowList_ok : ∀ l : List RawRow, ∀ s ∈ parseRowList l, sectionOk s = true := by
  refine parseRowList.induct (fun r => ∀ s ∈ parseGLRows r, sectionOk s = true)
    (fun l => ∀ s ∈ parseRowList l, sectionOk s = true) ?_ ?_ ?_ ?_ ?_
  · intro rs ih s hs
    simp only [parseGLRows] at hs
    exact ih s hs
  · intro t h s hs
    cases t with
    | withRow rs => exact absurd rfl (h rs)
    | pyNone => simp [parseGLRows] at hs
    | noRowKey b => simp [parseGLRows] at hs
  · intro s hs
    simp [parseRowList] at hs
  · intro header cd inner rest ih1 ih2 s hs
    simp only [parseRowList, if_pos rfl] at hs
    rcases List.mem_cons.1 hs with hhead | htail
    · subst hhead
      cases header with
      | nil => simp [sectionOk, sectionsOk]
      | cons c cs' =>
        by_cases hname : pyStrip c.value = ""
        · rw [if_pos hname]
          simp [sectionOk, sectionsOk]
        · rw [if_neg hname]
          simp only [sectionOk]
          rw [sectionsOk_iff]
          intro k hk
          have hk' := List.mem_filter.1 hk
          refine ⟨by simpa using hk'.2, ih1 k hk'.1⟩
    · exact ih2 s htail
  · intro t header cd inner rest hne ih s hs
    simp only [parseRowList, if_neg hne] at hs
    exact ih s hs

/-- C3: after parsing, no section's children list contains a section
carrying the anonymous sentinel name, at any depth: the recursive
invariant `sectionOk` — every child is sentinel-free and itself satisfies
the invariant — holds of every section the GL row parser returns, for
every raw Rows input (anonymous placeholders, including empty ones, are
absorbed into their direct parent and removed). -/
theorem parse_absorbs_all_anonymous_children :
    (∀ s : GLSection, sectionOk s = true ↔
      ∀ c ∈ s.children, c.name ≠ sentinelName ∧ sectionOk c = true) ∧
    ∀ r : RowsObj, ∀ s ∈ parseGLRows r, sectionOk s = true := by
  constructor
  · intro s
    cases s with
    | mk n i da dc cs ts =>
      simp only [sectionOk, GLSection.children]
      exact sectionsOk_iff cs
  · intro r s hs
    cases r with
    | withRow rs =>
      simp only [parseGLRows] at hs
      exact parseRowList_ok rs s hs
    | pyNone => simp [parseGLRows] at hs
    | noRowKey b => simp [parseGLRows] at hs

/-- C1 (spec-modelled; the indexed lookup exists only in the repository's
tests): the Section Index lookup resolves in this exact order — a
non-empty id present in the index wins; otherwise an exact name key;
otherwise the first indexed section whose name ends with a space followed
by the requested name; otherwise not-found.  In particular an id match is
returned even when the name would resolve to a different section. -/
theorem findSectionIdx_order (idx : List (String × GLSection)) (name id : String) :
    (∀ s, id ≠ "" → dictGet? idx id = some s → findSectionIdx idx name id = some s) ∧
    ((id = "" ∨ dictGet? idx id = none) →
      ∀ s, dictGet? idx name = some s → findSectionIdx idx name id = some s) ∧
    ((id = "" ∨ dictGet? idx id = none) → dictGet? idx name = none →
      findSectionIdx idx name id =
        (idx.find? (fun p => strEndsWith p.2.name (" " ++ name))).map (fun p => p.2)) := by
  refine ⟨?_, ?_, ?_⟩
  · intro s hid hsome
    simp [findSectionIdx, hid, hsome]
  · intro h s hname
    rcases h with h | h
    · simp [findSectionIdx, h, hname]
    · by_cases hid : id = "" <;> simp [findSectionIdx, hid, h, hname]
  · intro h hname
    rcases h with h | h
    · simp [findSectionIdx, h, hname]
    · by_cases hid : id = "" <;> simp [findSectionIdx, hid, h, hname]

theorem buildSectionIndex_fixture :
    buildSectionIndex [revenueSec] =
      [("Revenue", revenueSec), ("100", revenueSec),
       ("Consulting Revenue", consultingSec), ("101", consultingSec),
       ("Product Revenue", productSec), ("102", productSec)] := by
  simp only [buildSectionIndex, revenueSec, consultingSec, productSec, jeTxn]
  simp [buildIndexFrom, dictInsert]

/-- Witness for C1 on the spec's collision scenario: in the index of the
fixture, the name "Revenue" resolves to the "Revenue" section while the
id "101" belongs to the differently named "Consulting Revenue" section,
and the lookup with both returns the id match. -/
theorem findSectionIdx_order_witness :
    ("101" ≠ "" ∧
      dictGet? (buildSectionIndex [revenueSec]) "101" = some consultingSec) ∧
    dictGet? (buildSectionIndex [revenueSec]) "Revenue" = some revenueSec ∧
    consultingSec.name ≠ revenueSec.name ∧
    findSectionIdx (buildSectionIndex [revenueSec]) "Revenue" "101" = some consultingSec := by
  have h101 : dictGet? (buildSectionIndex [revenueSec]) "101" = some consultingSec := by
    rw [buildSectionIndex_fixture]
    simp [dictGet?]
  have hrev : dictGet? (buildSectionIndex [revenueSec]) "Revenue" = some revenueSec := by
    rw [buildSectionIndex_fixture]
    simp [dictGet?]
  refine ⟨⟨by decide, h101⟩, hrev, by decide, ?_⟩
  exact (findSectionIdx_order (buildSectionIndex [revenueSec]) "Revenue" "101").1
    consultingSec (by decide) h101

/-- C9: the render phase never mutates a parsed section.  In the store
model, `_build_txns_report` — the only renderer that sorts in place —
only appends the fresh list built by `all_transactions` to the store, so
every pre-existing list object (in particular every section's own
`transactions` list) is unchanged; the by-customer report, the
tree/expanded report lines and the subtotal computation return the store
exactly as received, and sections themselves are immutable values whose
name/id/direct fields and children no operation rewrites. -/
theorem render_preserves_sections (σ : TxnStore) (gl : List GLSectionR)
    (node anode : AcctNode) (cur : String) (expanded : Bool) :
    (∀ i, i < σ.length → ((buildTxnsReportSt σ gl node cur).2)[i]? = σ[i]?) ∧
    (∀ s : GLSectionR, s.txnsRef < σ.length →
      GLSectionR.transactionsIn ((buildTxnsReportSt σ gl node cur).2) s =
        s.transactionsIn σ) ∧
    (buildByCustomerReportSt σ gl node cur).2 = σ ∧
    (buildReportLinesSt σ gl node cur expanded).2 = σ ∧
    (computeSubtotalSt σ gl anode).2 = σ := by
  have hback : ∀ i, i < σ.length →
      ((buildTxnsReportSt σ gl node cur).2)[i]? = σ[i]? := by
    intro i hi
    cases h : findGLSectionR gl node.name with
    | none => simp [buildTxnsReportSt, h]
    | some s =>
      by_cases he : (s.allTransactionsIn σ).isEmpty <;>
        simp [buildTxnsReportSt, h, he, List.getElem?_append, hi]
  refine ⟨hback, ?_, ?_, rfl, rfl⟩
  · intro s hs
    have := hback s.txnsRef hs
    simp only [GLSectionR.transactionsIn, List.getD, List.get?_eq_getElem?]
    rw [this]
  · cases h : findGLSectionR gl node.name with
    | none => simp [buildByCustomerReportSt, h]
    | some s =>
      by_cases he : (s.allTransactionsIn σ).isEmpty <;>
        simp [buildByCustomerReportSt, h, he]

/-- Witness for C9 at a concrete one-cell store. -/
theorem render_preserves_sections_witness :
    (0 : ℕ) < ([[⟨"2025-01-01", "Invoice", "1", "", "", "", "", 10⟩]] : TxnStore).length ∧
    ((buildTxnsReportSt [[⟨"2025-01-01", "Invoice", "1", "", "", "", "", 10⟩]]
        [GLSectionR.mk "A" "" 10 1 [] 0] (AcctNode.mk "A" "" []) "").2)[0]? =
      ([[⟨"2025-01-01", "Invoice", "1", "", "", "", "", 10⟩]] : TxnStore)[0]? :=
  ⟨by decide,
    (render_preserves_sections [[⟨"2025-01-01", "Invoice", "1", "", "", "", "", 10⟩]]
      [GLSectionR.mk "A" "" 10 1 [] 0] (AcctNode.mk "A" "" []) (AcctNode.mk "A" "" [])
      "" false).1 0 (by decide)⟩

/-- Witness for C3 at the parsed fixture: the "Revenue" section is in the
parser's output and satisfies the sentinel-free invariant. -/
theorem parse_absorbs_all_anonymous_children_witness :
    revenueSec ∈ parseGLRows (RowsObj.withRow [revenueRaw]) ∧
    sectionOk revenueSec = true := by
  have hm : revenueSec ∈ parseGLRows (RowsObj.withRow [revenueRaw]) := by
    show revenueSec ∈ glFixture
    rw [glFixture_eval']
    exact List.mem_singleton.2 rfl
  exact ⟨hm, parse_absorbs_all_anonymous_children.2
    (RowsObj.withRow [revenueRaw]) revenueSec hm⟩
